import Mathlib

/-!
Verification of the SchoolManApp authentication / role-based authorization
core against its natural-language specification.

The embedding below translates, from the TypeScript source:
* the route policy tables and matching helpers of `RouteProtector`
  (`DASHBOARD_ROUTES`, `LIST_ROUTES`, `PROTECTED_ROUTES`, `isProtectedRoute`,
  `getDashboardRoute`, `getUserRoleFromClaims`);
* the three effects of the `RouteProtector` component and the loading flag of
  `AuthLoadingContext` / `AuthLoadingOverlay`;
* the Clerk edge middleware;
* the two API handlers `pages/api/user/role.ts` (role fetch, first-touch
  provisioning) and `pages/api/user/update-role.ts` (role update + claims
  mirror).

Strings from the source are modelled as lists of characters, so that
`String.prototype.startsWith` becomes `List.isPrefixOf`.
-/

namespace SchoolMan

/-- A URL pathname, as a sequence of characters. -/
abbrev Path := List Char

/-- JavaScript string truthiness: a string is falsy exactly when empty. -/
def strTruthy (s : String) : Bool := !(s == "")

/-- Truthiness of a `string | null` value (`null` and `""` are falsy). -/
def optStrTruthy : Option String → Bool
  | none => false
  | some s => strTruthy s

/-- `DASHBOARD_ROUTES` from `RouteProtector`: maps each dashboard route to the
roles allowed on it (insertion order preserved). -/
def DASHBOARD_ROUTES : List (Path × List String) :=
  [("/admin".toList, ["admin"]),
   ("/teacher".toList, ["teacher"]),
   ("/student".toList, ["student"]),
   ("/parent".toList, ["parent"])]

/-- `LIST_ROUTES` from `RouteProtector`: routes accessible to any
authenticated user. -/
def LIST_ROUTES : List Path :=
  ["/list".toList, "/profile".toList, "/settings".toList, "/logout".toList]

/-- `PROTECTED_ROUTES = [...Object.keys(DASHBOARD_ROUTES), ...LIST_ROUTES]`. -/
def PROTECTED_ROUTES : List Path :=
  DASHBOARD_ROUTES.map Prod.fst ++ LIST_ROUTES

/-- `isProtectedRoute(pathname)`:
`PROTECTED_ROUTES.some((route) => pathname.startsWith(route))`. -/
def isProtectedRoute (pathname : Path) : Bool :=
  PROTECTED_ROUTES.any (fun route => route.isPrefixOf pathname)

/-- One dashboard-route match test from the `getDashboardRoute` loop:
`pathname.startsWith(route + "/") || pathname === route`. -/
def dashRouteMatches (route pathname : Path) : Bool :=
  (route ++ ['/']).isPrefixOf pathname || pathname == route

/-- `getDashboardRoute(pathname)`: first key of `DASHBOARD_ROUTES` matching
the pathname at a segment boundary, else `null`. -/
def getDashboardRoute (pathname : Path) : Option Path :=
  (DASHBOARD_ROUTES.map Prod.fst).find? (fun route => dashRouteMatches route pathname)

/-- `DASHBOARD_ROUTES[dashboardRoute]` (empty list when the key is absent,
which never happens for keys produced by `getDashboardRoute`). -/
def allowedRolesFor (route : Path) : List String :=
  match DASHBOARD_ROUTES.find? (fun e => e.fst == route) with
  | some e => e.snd
  | none => []

/-- The slice of a Clerk user object read by `RouteProtector`:
`user.publicMetadata.role` (absent modelled as `none`). -/
structure ClerkUser where
  publicMetadataRole : Option String
deriving Repr, DecidableEq

/-- `getUserRoleFromClaims(user)` = `user?.publicMetadata?.role || null`
(the `||` turns both a missing role and the empty string into `null`). -/
def getUserRoleFromClaims (user : Option ClerkUser) : Option String :=
  match user with
  | none => none
  | some u =>
    match u.publicMetadataRole with
    | none => none
    | some r => if strTruthy r then some r else none

/-- Terminal decision of an authorization check. -/
inductive Decision where
  | ALLOW
  | DENY
deriving Repr, DecidableEq

/-- `"/sign-in"`, the redirect target used on every denial. -/
def signInPath : Path := "/sign-in".toList

/-- Observable outcome of one completed run of `RouteProtector`'s main effect:
the terminal decision, the value passed to `setAuthLoading`, and the redirect
issued via `router.push` (if any). -/
structure CheckOutcome where
  decision : Decision
  authLoading : Bool
  redirect : Option Path
deriving Repr, DecidableEq

/-- Effect 0 of `RouteProtector`: the value passed to `setAuthLoading` as soon
as the pathname is known, before any asynchronous check
(`true` on protected routes, `false` on public ones). -/
def effect0 (pathname : Path) : Bool := isProtectedRoute pathname

/-- Effect 1 of `RouteProtector`: role loading. Returns the pair
`(isRoleLoaded, userRole)`. While Clerk has not loaded the state keeps its
initial value `(false, none)`; with no (truthy) user it becomes
`(true, none)`; otherwise the role is read from the user's claims. -/
def roleLoadStep (isLoaded : Bool) (userId : Option String)
    (user : Option ClerkUser) : Bool × Option String :=
  if !isLoaded then (false, none)
  else if !(optStrTruthy userId) || user.isNone then (true, none)
  else (true, getUserRoleFromClaims user)

/-- Effect 2 of `RouteProtector` (the main check): `none` while the run is
still pending (Clerk or the role not yet loaded on a protected route),
otherwise the terminal outcome.  Transcribed branch by branch from the
source. -/
def effect2 (pathname : Path) (isLoaded isRoleLoaded : Bool)
    (userId : Option String) (userRole : Option String) : Option CheckOutcome :=
  if !isLoaded then none
  else if isProtectedRoute pathname && !isRoleLoaded then none
  else if !(isProtectedRoute pathname) then
    some ⟨Decision.ALLOW, false, none⟩
  else if !(optStrTruthy userId) then
    some ⟨Decision.DENY, false, some signInPath⟩
  else
    match getDashboardRoute pathname with
    | some dashboardRoute =>
      match userRole with
      | none => some ⟨Decision.DENY, false, some signInPath⟩
      | some r =>
        if !(strTruthy r) || !((allowedRolesFor dashboardRoute).contains r) then
          some ⟨Decision.DENY, false, some signInPath⟩
        else
          some ⟨Decision.ALLOW, false, none⟩
    | none => some ⟨Decision.ALLOW, false, none⟩

/-- One full navigation through `RouteProtector`: effect 1 computes the role
state, then effect 2 decides. -/
def runProtector (pathname : Path) (isLoaded : Bool) (userId : Option String)
    (user : Option ClerkUser) : Option CheckOutcome :=
  let rl := roleLoadStep isLoaded userId user
  effect2 pathname isLoaded rl.fst userId rl.snd

/-- Resulting flag value after an effect-2 run: a pending run performs no
mutation, a terminal run calls `setAuthLoading` with the outcome's value. -/
def applyOutcome (flag : Bool) : Option CheckOutcome → Bool
  | none => flag
  | some o => o.authLoading

/-- `useState(true)` in `AuthLoadingProvider`: the loading flag's initial
value. -/
def initialAuthLoading : Bool := true

/-- `AuthLoadingOverlay`: renders the full-screen loader exactly when
`isAuthLoading` is true (`if (!isAuthLoading) return null`). -/
def AuthLoadingOverlay (isAuthLoading : Bool) : Option Unit :=
  if !isAuthLoading then none else some ()

/-- `RouteProtector`'s render function mounts its children unconditionally
(`return <>{children}</>`), whatever the loading flag holds. -/
def RouteProtectorMountsChildren (_isAuthLoading : Bool) : Bool := true

/-- What the root layout shows for a given value of the loading flag: whether
the overlay is present, and whether the protected subtree is mounted. -/
structure RootRender where
  overlayShown : Bool
  childrenMounted : Bool
deriving Repr, DecidableEq

/-- The root layout: `AuthLoadingOverlay` next to
`RouteProtector`-wrapped children, both driven by the single flag. -/
def renderRootLayout (isAuthLoading : Bool) : RootRender :=
  { overlayShown := (AuthLoadingOverlay isAuthLoading).isSome
    childrenMounted := RouteProtectorMountsChildren isAuthLoading }

/-- The route matchers of `middleware.ts`
(`"/admin(.*)"`, ..., `"/logout(.*)"`), i.e. prefix matching. -/
def middlewareMatchers : List Path :=
  ["/admin".toList, "/teacher".toList, "/student".toList, "/parent".toList,
   "/list".toList, "/profile".toList, "/settings".toList, "/logout".toList]

/-- `isProtectedRoute` of `middleware.ts` (`createRouteMatcher` over the
patterns above). -/
def isProtectedRouteMw (p : Path) : Bool :=
  middlewareMatchers.any (fun r => r.isPrefixOf p)

/-- `clerkMiddleware`: on a protected route, `auth.protect()` redirects an
unauthenticated request to sign-in; otherwise the request passes through
(`none` = no redirect). -/
def clerkMiddleware (p : Path) (authenticated : Bool) : Option Path :=
  if isProtectedRouteMw p && !authenticated then some signInPath else none

/-! ### The two role API endpoints -/

/-- A row of the Prisma `User` table, restricted to the columns the two
handlers touch. -/
structure UserRec where
  id : String
  email : String
  role : String
deriving Repr, DecidableEq

/-- Persistent state visible to the endpoints: the Prisma `User` table and
the Clerk `publicMetadata.role` mirror (an association list keyed by Clerk
user id). -/
structure Store where
  db : List UserRec
  claims : List (String × String)
deriving Repr, DecidableEq

/-- The slice of a `NextApiRequest` the two handlers can observe: the HTTP
method, the JSON body fields, and the Clerk session of the caller (attached
by the middleware; available to the handlers via `auth`). -/
structure ApiRequest where
  method : String
  bodyUserId : Option String
  bodyNewRole : Option String
  session : Option String
deriving Repr, DecidableEq

/-- Result of `pages/api/user/role.ts`: HTTP status, the JSON payload
(`role` on success, `error` otherwise), and the state after the call. -/
structure RoleFetchResult where
  status : Nat
  role : Option String
  error : Option String
  store : Store
deriving Repr, DecidableEq

/-- `prisma.user.findUnique({ where: { id } })`. -/
def findUser (db : List UserRec) (uid : String) : Option UserRec :=
  db.find? (fun u => u.id == uid)

/-- The handler of `pages/api/user/role.ts` (role fetch): validates the
method and body, looks the user up, and auto-creates a record with default
role `"student"` when none exists.  The Clerk claims mirror is not written
anywhere in this handler. -/
def roleHandler (req : ApiRequest) (store : Store) : RoleFetchResult :=
  if req.method != "POST" then
    ⟨405, none, some "Method not allowed", store⟩
  else
    match req.bodyUserId with
    | none => ⟨400, none, some "User ID is required", store⟩
    | some uid =>
      if !(strTruthy uid) then ⟨400, none, some "User ID is required", store⟩
      else
        match findUser store.db uid with
        | some u => ⟨200, some u.role, none, store⟩
        | none =>
          let newUser : UserRec := ⟨uid, "", "student"⟩
          ⟨200, some newUser.role, none, ⟨store.db ++ [newUser], store.claims⟩⟩

/-- `prisma.user.update({ where: { id }, data: { role } })`: `none` when the
record is missing (Prisma throws, caught as a 500 by the handler). -/
def dbUpdateRole (db : List UserRec) (uid r : String) : Option (List UserRec) :=
  if db.any (fun u => u.id == uid) then
    some (db.map (fun u => if u.id == uid then { u with role := r } else u))
  else none

/-- `clerkClient().users.updateUserMetadata`: set the mirrored role for a
user id in the claims association list. -/
def setClaims (cl : List (String × String)) (uid r : String) :
    List (String × String) :=
  if cl.any (fun e => e.fst == uid) then
    cl.map (fun e => if e.fst == uid then (uid, r) else e)
  else (uid, r) :: cl

/-- `["admin", "teacher", "student", "parent"]` from the update handler's
body validation. -/
def VALID_ROLES : List String := ["admin", "teacher", "student", "parent"]

/-- Result of `pages/api/user/update-role.ts`, additionally recording how
many claims-mirror write attempts the handler performed. -/
structure UpdateResult where
  status : Nat
  role : Option String
  error : Option String
  store : Store
  mirrorAttempts : Nat
deriving Repr, DecidableEq

/-- The handler of `pages/api/user/update-role.ts`: validates the body,
writes the Prisma record, then performs a single claims-mirror write whose
success is given by `mirrorOk 0` (attempt numbering makes the absence of a
retry observable).  A mirror failure is caught by the surrounding
`try`/`catch` and answered with a 500 — the already-written record is not
rolled back and no further attempt is made.  The handler never reads
`req.session`: no caller-privilege check appears in the source. -/
def updateRoleHandler (req : ApiRequest) (store : Store)
    (mirrorOk : Nat → Bool) : UpdateResult :=
  if req.method != "POST" then
    ⟨405, none, some "Method not allowed", store, 0⟩
  else
    match req.bodyUserId with
    | none => ⟨400, none, some "User ID is required", store, 0⟩
    | some uid =>
      if !(strTruthy uid) then ⟨400, none, some "User ID is required", store, 0⟩
      else
        match req.bodyNewRole with
        | none => ⟨400, none, some "Valid role is required", store, 0⟩
        | some r =>
          if !(strTruthy r) || !(VALID_ROLES.contains r) then
            ⟨400, none, some "Valid role is required", store, 0⟩
          else
            match dbUpdateRole store.db uid r with
            | none => ⟨500, none, some "Internal server error", store, 0⟩
            | some db2 =>
              if mirrorOk 0 then
                ⟨200, some r, none, ⟨db2, setClaims store.claims uid r⟩, 1⟩
              else
                ⟨500, none, some "Internal server error", ⟨db2, store.claims⟩, 1⟩

/-! ### The claims read of `getUserRoleFromClaims`, with its failure mode

`getUserRoleFromClaims` wraps a single property access in `try`/`catch`;
a throwing access yields `null`.  To make the attempt count observable the
access is modelled as an oracle indexed by attempt number: the source
consults attempt `0` and nothing else. -/

/-- The `|| null` normalisation applied to a successfully read claim value. -/
def normalizeClaimRole : Option String → Option String
  | none => none
  | some r => if strTruthy r then some r else none

/-- One full run of `getUserRoleFromClaims` against a fallible claims read:
returns the resolved role together with the number of read attempts
performed.  The source performs exactly one attempt; a throw is caught and
resolved to `null`. -/
def getUserRoleFetchRun (read : Nat → Except Unit (Option String)) :
    Option String × Nat :=
  match read 0 with
  | Except.error _ => (none, 1)
  | Except.ok v => (normalizeClaimRole v, 1)

/-- Modelled from the spec: the role fetch as §4.4's failure semantics word
it — on a first failed attempt the fetch is retried exactly once, and only a
second failure resolves to no role.  Stated for comparison with
`getUserRoleFetchRun`; no such retry exists in the source. -/
def getUserRoleFetchRetrySpec (read : Nat → Except Unit (Option String)) :
    Option String × Nat :=
  match read 0 with
  | Except.ok v => (normalizeClaimRole v, 1)
  | Except.error _ =>
    match read 1 with
    | Except.ok v => (normalizeClaimRole v, 2)
    | Except.error _ => (none, 2)

/-! ### Helper lemmas -/

lemma optStrTruthy_some (uid : String) (hu : uid ≠ "") :
    optStrTruthy (some uid) = true := by
  simp [optStrTruthy, strTruthy, hu]

/-- `effect2` observes the user id only through its truthiness. -/
lemma effect2_userId_congr (p : Path) (l rl : Bool) (u1 u2 : Option String)
    (h : optStrTruthy u1 = optStrTruthy u2) (role : Option String) :
    effect2 p l rl u1 role = effect2 p l rl u2 role := by
  simp only [effect2, h]

/-- With Clerk loaded, a truthy user id and a nonempty claims role, the full
navigation reduces to the main check with that role. -/
lemma runProtector_auth_user (p : Path) (uid r : String)
    (hu : uid ≠ "") (hr : r ≠ "") :
    runProtector p true (some uid) (some ⟨some r⟩) =
      effect2 p true true (some uid) (some r) := by
  simp [runProtector, roleLoadStep, getUserRoleFromClaims, optStrTruthy,
    strTruthy, hu, hr]

/-- A pathname with a dashboard entry is a protected route. -/
lemma isProtected_of_dashboard {p d : Path} (h : getDashboardRoute p = some d) :
    isProtectedRoute p = true := by
  rw [getDashboardRoute] at h
  have hmem : d ∈ DASHBOARD_ROUTES.map Prod.fst := List.mem_of_find?_eq_some h
  have hmatch : dashRouteMatches d p = true := by
    have hm := List.find?_some h
    simpa using hm
  rw [dashRouteMatches, Bool.or_eq_true] at hmatch
  have hpre : d.isPrefixOf p = true := by
    rcases hmatch with h1 | h2
    · rw [ List.isPrefixOf_iff_prefix] at h1 ⊢
      exact (List.prefix_append d ['/']).trans h1
    · have hpd : p = d := by simpa using h2
      subst hpd
      simp [ List.isPrefixOf_iff_prefix]
  rw [isProtectedRoute, List.any_eq_true]
  refine ⟨d, ?_, hpre⟩
  rw [PROTECTED_ROUTES]
  exact List.mem_append_left _ hmem

/-! ### C2: exhaustive 4×4 dashboard decision -/

/-- **C2.** For every role `r` in `admin, teacher, student, parent` and every
dashboard path `p` in `/admin, /teacher, /student, /parent`, an authenticated
user (nonempty Clerk user id) whose claims carry role `r` navigating to `p`
terminates in `ALLOW` exactly when `r` belongs to `p`'s allowed role set, and
otherwise in `DENY` with a redirect to `/sign-in` — 16 combinations in all. -/
theorem dashboard_decision_exhaustive (uid : String) (hu : uid ≠ "")
    (r : String) (hr : r ∈ ["admin", "teacher", "student", "parent"])
    (p : Path) (hp : p ∈ DASHBOARD_ROUTES.map Prod.fst) :
    runProtector p true (some uid) (some ⟨some r⟩) =
      some (if (allowedRolesFor p).contains r then
              ⟨Decision.ALLOW, false, none⟩
            else
              ⟨Decision.DENY, false, some signInPath⟩) := by
  have hr' : r ≠ "" := by fin_cases hr <;> decide
  rw [runProtector_auth_user p uid r hu hr',
    effect2_userId_congr p true true (some uid) (some "u")
      (by rw [optStrTruthy_some uid hu]; decide) (some r)]
  simp only [DASHBOARD_ROUTES, List.map] at hp
  fin_cases hr <;> fin_cases hp <;> decide

/-- Witness for C2 at role `teacher` on `/teacher` (allowed) — the theorem's
hypotheses hold at this concrete input. -/
theorem dashboard_decision_exhaustive_witness :
    runProtector "/teacher".toList true (some "u1") (some ⟨some "teacher"⟩) =
      some (if (allowedRolesFor "/teacher".toList).contains "teacher" then
              ⟨Decision.ALLOW, false, none⟩
            else
              ⟨Decision.DENY, false, some signInPath⟩) :=
  dashboard_decision_exhaustive "u1" (by decide) "teacher" (by decide)
    "/teacher".toList (by decide)

/-! ### C3: no identity on a protected path -/

/-- **C3.** On every protected path with no authenticated identity, the check
terminates in `DENY`, redirects to `/sign-in`, passes `false` to the loading
flag (so the flag ends `false`), and the edge middleware likewise redirects
the unauthenticated request to sign-in. -/
theorem no_identity_denies (p : Path) (hp : isProtectedRoute p = true) :
    runProtector p true none none =
      some ⟨Decision.DENY, false, some signInPath⟩ ∧
    applyOutcome (effect0 p) (runProtector p true none none) = false ∧
    clerkMiddleware p false = some signInPath := by
  have hrun : runProtector p true none none =
      some ⟨Decision.DENY, false, some signInPath⟩ := by
    simp [runProtector, roleLoadStep, effect2, hp, optStrTruthy]
  refine ⟨hrun, ?_, ?_⟩
  · rw [hrun]; rfl
  · have hmw : isProtectedRouteMw p = true := by
      have hlists : middlewareMatchers = PROTECTED_ROUTES := by decide
      rw [isProtectedRouteMw, hlists]
      exact hp
    simp [clerkMiddleware, hmw]

/-- Witness for C3 at the protected path `/admin`. -/
theorem no_identity_denies_witness :
    isProtectedRoute "/admin".toList = true ∧
    (runProtector "/admin".toList true none none =
        some ⟨Decision.DENY, false, some signInPath⟩ ∧
      applyOutcome (effect0 "/admin".toList)
        (runProtector "/admin".toList true none none) = false ∧
      clerkMiddleware "/admin".toList false = some signInPath) :=
  ⟨by decide, no_identity_denies "/admin".toList (by decide)⟩

/-! ### C4: the loading flag -/

/-- **C4.** The loading flag is a single boolean defaulting to `true`; on a
protected path it is set `true` by effect 0 and no pending run of the main
check mutates it (so it stays `true` while the session is pending); on a
non-protected path effect 0 sets it `false` immediately, before any check. -/
theorem loading_flag_invariant :
    initialAuthLoading = true ∧
    (∀ p, isProtectedRoute p = true →
      effect0 p = true ∧
      ∀ (isLoaded isRoleLoaded : Bool) (userId userRole : Option String),
        (isLoaded = false ∨ isRoleLoaded = false) →
        effect2 p isLoaded isRoleLoaded userId userRole = none ∧
        applyOutcome (effect0 p)
          (effect2 p isLoaded isRoleLoaded userId userRole) = true) ∧
    (∀ p, isProtectedRoute p = false → effect0 p = false) := by
  refine ⟨rfl, ?_, ?_⟩
  · intro p hp
    refine ⟨by simp [effect0, hp], ?_⟩
    intro isLoaded isRoleLoaded userId userRole hpending
    have hnone : effect2 p isLoaded isRoleLoaded userId userRole = none := by
      rcases hpending with rfl | rfl
      · simp [effect2]
      · cases isLoaded <;> simp [effect2, hp]
    exact ⟨hnone, by simp [hnone, applyOutcome, effect0, hp]⟩
  · intro p hp
    simp [effect0, hp]

/-- Witness for C4: on `/admin` while the role is not yet loaded, a pending
run leaves the flag at `true`; on the public path `/`, effect 0 sets it
`false` at once. -/
theorem loading_flag_invariant_witness :
    (isProtectedRoute "/admin".toList = true ∧
      effect2 "/admin".toList true false (some "u1") none = none ∧
      applyOutcome (effect0 "/admin".toList)
        (effect2 "/admin".toList true false (some "u1") none) = true) ∧
    (isProtectedRoute "/".toList = false ∧ effect0 "/".toList = false) :=
  ⟨⟨by decide,
    (((loading_flag_invariant.2.1 "/admin".toList (by decide)).2
      true false (some "u1") none (Or.inr rfl))).1,
    (((loading_flag_invariant.2.1 "/admin".toList (by decide)).2
      true false (some "u1") none (Or.inr rfl))).2⟩,
   ⟨by decide, loading_flag_invariant.2.2 "/".toList (by decide)⟩⟩

/-! ### C1: mount gating -/

/-- **C1 counterexample.** The claim says protected content is never mounted
while the Loading Flag is true.  In the code `RouteProtector` renders its
children unconditionally, so with the flag at `true` the protected subtree is
mounted (behind the full-screen overlay): the gating property fails at
`isAuthLoading = true`. -/
theorem mount_gating_counterexample :
    ¬ (∀ b : Bool, (renderRootLayout b).childrenMounted = true → b = false) := by
  intro h
  simpa using h true rfl

/-- **C1 amended.** The protected subtree is always mounted, including while
the flag is true; the render layer instead gates the full-screen overlay that
covers it, solely on the Loading Flag value (the overlay shows exactly when
the flag is true, independent of any state-machine instance); and every
terminal `ALLOW` outcome of the check passes `false` to the flag. -/
theorem overlay_gating :
    (∀ b, (renderRootLayout b).childrenMounted = true) ∧
    (∀ b, (renderRootLayout b).overlayShown = b) ∧
    (∀ (p : Path) (l rl : Bool) (userId userRole : Option String)
      (out : CheckOutcome),
      effect2 p l rl userId userRole = some out → out.authLoading = false) := by
  refine ⟨fun b => rfl, fun b => by cases b <;> rfl, ?_⟩
  intro p l rl userId userRole out
  rw [effect2]
  repeat' split
  all_goals intro h
  all_goals
    first
      | exact Option.noConfusion h
      | (cases Option.some.inj h; rfl)

/-- Witness for C1 amended: a concrete `ALLOW` outcome on `/admin` carries
flag value `false`, while the subtree is mounted and the overlay tracks the
flag. -/
theorem overlay_gating_witness :
    (renderRootLayout true).childrenMounted = true ∧
    (renderRootLayout false).overlayShown = false ∧
    (⟨Decision.ALLOW, false, none⟩ : CheckOutcome).authLoading = false :=
  ⟨overlay_gating.1 true, overlay_gating.2.1 false,
   overlay_gating.2.2 "/admin".toList true true (some "u1") (some "admin")
     ⟨Decision.ALLOW, false, none⟩ (by decide)⟩

/-! ### C5: role-fetch failure semantics -/

/-- A claims read whose first attempt throws and whose second attempt would
return the role `"admin"`. -/
def flakyClaimsRead : Nat → Except Unit (Option String) :=
  fun k => if k = 0 then Except.error () else Except.ok (some "admin")

/-- **C5 counterexample.** The claim mandates exactly one bounded retry of a
failed role fetch.  Against a read whose first attempt throws and whose
second would succeed, the code resolves to no role after a single attempt,
while the spec's retried fetch would resolve to `"admin"` on attempt two:
there is no retry in the code. -/
theorem role_fetch_retry_counterexample :
    getUserRoleFetchRun flakyClaimsRead = (none, 1) ∧
    getUserRoleFetchRetrySpec flakyClaimsRead = (some "admin", 2) := by
  constructor <;> rfl

/-- **C5 amended.** A role-fetch failure is fail-closed with no retry: the
claims read is attempted exactly once, a throwing read resolves the role to
`none`, and the session for any protected dashboard path then terminates in
`DENY` with a redirect to sign-in — never in `ALLOW`. -/
theorem role_fetch_failure_fail_closed
    (read : Nat → Except Unit (Option String))
    (hfail : read 0 = Except.error ())
    (p d : Path) (hd : getDashboardRoute p = some d)
    (uid : String) (hu : uid ≠ "") :
    getUserRoleFetchRun read = (none, 1) ∧
    effect2 p true true (some uid) (getUserRoleFetchRun read).1 =
      some ⟨Decision.DENY, false, some signInPath⟩ := by
  have hrun : getUserRoleFetchRun read = (none, 1) := by
    rw [getUserRoleFetchRun, hfail]
  refine ⟨hrun, ?_⟩
  rw [hrun]
  have hp := isProtected_of_dashboard hd
  simp [effect2, hp, hd, optStrTruthy_some uid hu]

/-- Witness for C5 amended: a read that always throws, on `/admin`. -/
theorem role_fetch_failure_fail_closed_witness :
    getUserRoleFetchRun (fun _ => Except.error ()) = (none, 1) ∧
    effect2 "/admin".toList true true (some "u1")
        (getUserRoleFetchRun (fun _ => Except.error ())).1 =
      some ⟨Decision.DENY, false, some signInPath⟩ :=
  role_fetch_failure_fail_closed (fun _ => Except.error ()) rfl
    "/admin".toList "/admin".toList (by decide) "u1" (by decide)

/-! ### C6: first-touch provisioning -/

/-- **C6 counterexample.** The claim says the slow-path resolution for an
unknown identity creates the Role Record *and mirrors it to claims*.  For the
fresh identity `u1` on an empty store, the handler creates the record and
returns `"student"`, but leaves the claims mirror empty: no claims write
exists in this endpoint. -/
theorem provisioning_no_mirror_counterexample :
    (roleHandler ⟨"POST", some "u1", none, none⟩ ⟨[], []⟩).role =
        some "student" ∧
    (roleHandler ⟨"POST", some "u1", none, none⟩ ⟨[], []⟩).store.db =
        [⟨"u1", "", "student"⟩] ∧
    (roleHandler ⟨"POST", some "u1", none, none⟩ ⟨[], []⟩).store.claims = [] ∧
    ¬ (roleHandler ⟨"POST", some "u1", none, none⟩ ⟨[], []⟩).store.claims =
        [("u1", "student")] := by
  refine ⟨rfl, rfl, rfl, ?_⟩
  decide

/-- If `uid` has no record, appending its fresh record makes it the one
`findUser` returns. -/
lemma findUser_append_self (db : List UserRec) (uid : String)
    (h : findUser db uid = none) (u : UserRec) (hid : u.id = uid) :
    findUser (db ++ [u]) uid = some u := by
  rw [findUser, List.find?_append]
  rw [findUser] at h
  rw [h]
  simp [hid]

/-- **C6 amended.** For an identity with no existing Role Record, the
role-fetch endpoint creates a record with the least-privileged default role
`"student"` and returns that role rather than an error — it never denies for
lack of provisioning; it does **not** write the claims mirror.  Resolving the
same identity again with the record unchanged returns the same role and
leaves the state untouched. -/
theorem first_touch_provisioning
    (uid : String) (hu : uid ≠ "") (store : Store)
    (habsent : findUser store.db uid = none) (s1 s2 : Option String) :
    (roleHandler ⟨"POST", some uid, none, s1⟩ store).status = 200 ∧
    (roleHandler ⟨"POST", some uid, none, s1⟩ store).role = some "student" ∧
    (roleHandler ⟨"POST", some uid, none, s1⟩ store).error = none ∧
    (roleHandler ⟨"POST", some uid, none, s1⟩ store).store.claims =
      store.claims ∧
    (roleHandler ⟨"POST", some uid, none, s2⟩
        (roleHandler ⟨"POST", some uid, none, s1⟩ store).store).role =
      some "student" ∧
    (roleHandler ⟨"POST", some uid, none, s2⟩
        (roleHandler ⟨"POST", some uid, none, s1⟩ store).store).store =
      (roleHandler ⟨"POST", some uid, none, s1⟩ store).store := by
  have htr : strTruthy uid = true := by simp [strTruthy, hu]
  have hfirst : roleHandler ⟨"POST", some uid, none, s1⟩ store =
      ⟨200, some "student", none, ⟨store.db ++ [⟨uid, "", "student"⟩],
        store.claims⟩⟩ := by
    simp [roleHandler, htr, habsent]
  have hfind : findUser (store.db ++ [⟨uid, "", "student"⟩]) uid =
      some ⟨uid, "", "student"⟩ :=
    findUser_append_self store.db uid habsent ⟨uid, "", "student"⟩ rfl
  rw [hfirst]
  refine ⟨rfl, rfl, rfl, rfl, ?_, ?_⟩ <;>
    simp [roleHandler, htr, hfind]

/-- Witness for C6 amended at identity `u9` on an empty store. -/
theorem first_touch_provisioning_witness :
    (roleHandler ⟨"POST", some "u9", none, none⟩ ⟨[], []⟩).status = 200 ∧
    (roleHandler ⟨"POST", some "u9", none, none⟩ ⟨[], []⟩).role =
      some "student" ∧
    (roleHandler ⟨"POST", some "u9", none, none⟩ ⟨[], []⟩).error = none ∧
    (roleHandler ⟨"POST", some "u9", none, none⟩ ⟨[], []⟩).store.claims =
      (⟨[], []⟩ : Store).claims ∧
    (roleHandler ⟨"POST", some "u9", none, none⟩
        (roleHandler ⟨"POST", some "u9", none, none⟩ ⟨[], []⟩).store).role =
      some "student" ∧
    (roleHandler ⟨"POST", some "u9", none, none⟩
        (roleHandler ⟨"POST", some "u9", none, none⟩ ⟨[], []⟩).store).store =
      (roleHandler ⟨"POST", some "u9", none, none⟩ ⟨[], []⟩).store :=
  first_touch_provisioning "u9" (by decide) ⟨[], []⟩ rfl none none

/-! ### C7: role update and claims-mirror sync -/

/-- A store holding one user `u1` with role `student`, mirrored in claims. -/
def store1 : Store := ⟨[⟨"u1", "e", "student"⟩], [("u1", "student")]⟩

/-- **C7 counterexample.** The claim says a failed claims-mirror write (after
a successful record write) is retried with backoff.  With a mirror whose
first attempt fails and whose second attempt would succeed, the handler makes
exactly one attempt and answers 500: the record already holds the new role,
the mirror still holds the old one, and no retry happens. -/
theorem mirror_retry_counterexample :
    (updateRoleHandler ⟨"POST", some "u1", some "teacher", none⟩ store1
        (fun k => decide (0 < k))).mirrorAttempts = 1 ∧
    (updateRoleHandler ⟨"POST", some "u1", some "teacher", none⟩ store1
        (fun k => decide (0 < k))).status = 500 ∧
    (updateRoleHandler ⟨"POST", some "u1", some "teacher", none⟩ store1
        (fun k => decide (0 < k))).store.db = [⟨"u1", "e", "teacher"⟩] ∧
    (updateRoleHandler ⟨"POST", some "u1", some "teacher", none⟩ store1
        (fun k => decide (0 < k))).store.claims = [("u1", "student")] := by
  refine ⟨rfl, rfl, rfl, rfl⟩

/-- After a successful `dbUpdateRole`, every record for the updated id holds
the new role. -/
lemma dbUpdateRole_role (db : List UserRec) (uid r : String)
    (db2 : List UserRec) (h : dbUpdateRole db uid r = some db2) :
    ∀ u ∈ db2, u.id = uid → u.role = r := by
  rw [dbUpdateRole] at h
  split at h
  · cases Option.some.inj h
    intro u hu hid
    rw [List.mem_map] at hu
    rcases hu with ⟨v, _, rfl⟩
    by_cases hb : (v.id == uid) = true
    · simp [hb]
    · rw [if_neg (by simpa using hb)] at hid ⊢
      exact absurd (by simp [hid]) hb
  · exact Option.noConfusion h

/-- Replacing the entry for `uid` in an association list that contains one
makes it what the mirrored lookup returns. -/
lemma find?_map_setRole (cl : List (String × String)) (uid r : String)
    (hany : cl.any (fun e => e.fst == uid) = true) :
    (cl.map (fun e => if e.fst == uid then (uid, r) else e)).find?
      (fun e => e.fst == uid) = some (uid, r) := by
  induction cl with
  | nil => cases hany
  | cons a tl ih =>
    by_cases ha : (a.fst == uid) = true
    · simp [List.find?, ha]
    · have ha' : (a.fst == uid) = false := by simpa using ha
      have htl : tl.any (fun e => e.fst == uid) = true := by
        rw [List.any_cons] at hany
        simpa [ha'] using hany
      simpa [List.find?, ha'] using ih htl

/-- After `setClaims`, the mirrored lookup for the id yields the new role. -/
lemma setClaims_find (cl : List (String × String)) (uid r : String) :
    (setClaims cl uid r).find? (fun e => e.fst == uid) = some (uid, r) := by
  rw [setClaims]
  split
  · rename_i hany
    exact find?_map_setRole cl uid r hany
  · simp [List.find?]

/-- **C7 amended.** For a valid request on an existing record, the handler
writes the Role Record and then makes exactly one claims-mirror write
attempt.  On mirror success both the record and the mirror hold the new
role; if the mirror write fails after the record write succeeded, the
operation answers with an error, the record keeps the new role, and the
claims mirror is left unchanged — there is no retry. -/
theorem role_update_sync (uid r : String) (hu : uid ≠ "")
    (hr : r ∈ VALID_ROLES) (store : Store)
    (hpresent : store.db.any (fun u => u.id == uid) = true)
    (mirrorOk : Nat → Bool) :
    (updateRoleHandler ⟨"POST", some uid, some r, none⟩ store
        mirrorOk).mirrorAttempts = 1 ∧
    (mirrorOk 0 = true →
      (updateRoleHandler ⟨"POST", some uid, some r, none⟩ store
          mirrorOk).status = 200 ∧
      (updateRoleHandler ⟨"POST", some uid, some r, none⟩ store
          mirrorOk).role = some r ∧
      (∀ u ∈ (updateRoleHandler ⟨"POST", some uid, some r, none⟩ store
          mirrorOk).store.db, u.id = uid → u.role = r) ∧
      (updateRoleHandler ⟨"POST", some uid, some r, none⟩ store
          mirrorOk).store.claims.find? (fun e => e.fst == uid) =
        some (uid, r)) ∧
    (mirrorOk 0 = false →
      (updateRoleHandler ⟨"POST", some uid, some r, none⟩ store
          mirrorOk).status = 500 ∧
      (∀ u ∈ (updateRoleHandler ⟨"POST", some uid, some r, none⟩ store
          mirrorOk).store.db, u.id = uid → u.role = r) ∧
      (updateRoleHandler ⟨"POST", some uid, some r, none⟩ store
          mirrorOk).store.claims = store.claims) := by
  have htu : strTruthy uid = true := by simp [strTruthy, hu]
  have htr : strTruthy r = true := by
    fin_cases hr <;> decide
  have hco : VALID_ROLES.contains r = true := by
    exact List.elem_eq_true_of_mem hr
  have hdb : dbUpdateRole store.db uid r =
      some (store.db.map
        (fun u => if u.id == uid then { u with role := r } else u)) := by
    rw [dbUpdateRole, if_pos hpresent]
  cases hmo : mirrorOk 0 with
  | true =>
    have hres : updateRoleHandler ⟨"POST", some uid, some r, none⟩ store
        mirrorOk =
        ⟨200, some r, none,
          ⟨store.db.map
            (fun u => if u.id == uid then { u with role := r } else u),
           setClaims store.claims uid r⟩, 1⟩ := by
      simp [updateRoleHandler, htu, htr, hco, hdb, hmo, hr]
    rw [hres]
    refine ⟨rfl, fun _ => ⟨rfl, rfl, ?_, setClaims_find store.claims uid r⟩,
      fun hfalse => absurd hfalse (by simp)⟩
    exact dbUpdateRole_role store.db uid r _ hdb
  | false =>
    have hres : updateRoleHandler ⟨"POST", some uid, some r, none⟩ store
        mirrorOk =
        ⟨500, none, some "Internal server error",
          ⟨store.db.map
            (fun u => if u.id == uid then { u with role := r } else u),
           store.claims⟩, 1⟩ := by
      simp [updateRoleHandler, htu, htr, hco, hdb, hmo, hr]
    rw [hres]
    refine ⟨rfl, fun htrue => absurd htrue (by simp), fun _ => ⟨rfl, ?_, rfl⟩⟩
    exact dbUpdateRole_role store.db uid r _ hdb

/-- Witness for C7 amended: updating `u1` to `teacher` on `store1` with an
always-succeeding mirror. -/
theorem role_update_sync_witness :
    (updateRoleHandler ⟨"POST", some "u1", some "teacher", none⟩ store1
        (fun _ => true)).mirrorAttempts = 1 ∧
    ((fun _ => true : Nat → Bool) 0 = true →
      (updateRoleHandler ⟨"POST", some "u1", some "teacher", none⟩ store1
          (fun _ => true)).status = 200 ∧
      (updateRoleHandler ⟨"POST", some "u1", some "teacher", none⟩ store1
          (fun _ => true)).role = some "teacher" ∧
      (∀ u ∈ (updateRoleHandler ⟨"POST", some "u1", some "teacher", none⟩
          store1 (fun _ => true)).store.db,
        u.id = "u1" → u.role = "teacher") ∧
      (updateRoleHandler ⟨"POST", some "u1", some "teacher", none⟩ store1
          (fun _ => true)).store.claims.find? (fun e => e.fst == "u1") =
        some ("u1", "teacher")) ∧
    ((fun _ => true : Nat → Bool) 0 = false →
      (updateRoleHandler ⟨"POST", some "u1", some "teacher", none⟩ store1
          (fun _ => true)).status = 500 ∧
      (∀ u ∈ (updateRoleHandler ⟨"POST", some "u1", some "teacher", none⟩
          store1 (fun _ => true)).store.db,
        u.id = "u1" → u.role = "teacher") ∧
      (updateRoleHandler ⟨"POST", some "u1", some "teacher", none⟩ store1
          (fun _ => true)).store.claims = store1.claims) :=
  role_update_sync "u1" "teacher" (by decide) (by decide) store1
    (by decide) (fun _ => true)

/-! ### C8: route policy lookup -/

/-- **C8 counterexample.** The claim reads `null` from the lookup as "the
path is public".  For `/list/teachers` the policy's `/list` prefix matches
(the path is protected, not public), yet the dashboard lookup returns
`null`: `null` does not coincide with "no entry's prefix matches". -/
theorem lookup_null_not_public_counterexample :
    getDashboardRoute "/list/teachers".toList = none ∧
    isProtectedRoute "/list/teachers".toList = true := by
  constructor <;> decide

/-- Two distinct dashboard prefixes cannot both match a pathname, provided
none of the relevant boundary-prefix relations hold between them. -/
lemma dashMatches_forces (a b p : Path)
    (ma : dashRouteMatches a p = true) (mb : dashRouteMatches b p = true)
    (hne : a ≠ b)
    (h1 : (a ++ ['/']).isPrefixOf (b ++ ['/']) = false)
    (h2 : (b ++ ['/']).isPrefixOf (a ++ ['/']) = false)
    (h3 : (a ++ ['/']).isPrefixOf b = false)
    (h4 : (b ++ ['/']).isPrefixOf a = false) : False := by
  rw [dashRouteMatches, Bool.or_eq_true] at ma mb
  rcases ma with ha | ha <;> rcases mb with hb | hb
  · rw [ List.isPrefixOf_iff_prefix] at ha hb
    have htot := List.prefix_or_prefix_of_prefix ha hb
    rcases htot with h | h
    · rw [← List.isPrefixOf_iff_prefix] at h
      rw [h] at h1
      exact Bool.noConfusion h1
    · rw [← List.isPrefixOf_iff_prefix] at h
      rw [h] at h2
      exact Bool.noConfusion h2
  · have hpb : p = b := by simpa using hb
    subst hpb
    rw [ha] at h3
    exact Bool.noConfusion h3
  · have hpa : p = a := by simpa using ha
    subst hpa
    rw [hb] at h4
    exact Bool.noConfusion h4
  · have hpa : p = a := by simpa using ha
    have hpb : p = b := by simpa using hb
    exact hne (hpa.symm.trans hpb)

/-- At most one configured dashboard prefix matches any given pathname. -/
lemma dashMatches_unique (p d1 d2 : Path)
    (h1 : d1 ∈ DASHBOARD_ROUTES.map Prod.fst)
    (h2 : d2 ∈ DASHBOARD_ROUTES.map Prod.fst)
    (m1 : dashRouteMatches d1 p = true)
    (m2 : dashRouteMatches d2 p = true) : d1 = d2 := by
  simp only [DASHBOARD_ROUTES, List.map] at h1 h2
  fin_cases h1 <;> fin_cases h2 <;>
    first
      | rfl
      | exact (dashMatches_forces _ _ p m1 m2 (by decide) (by decide)
          (by decide) (by decide) (by decide)).elim

/-- **C8 amended.** Over the dashboard policy entries, the lookup returns
`null` exactly when no entry matches the path under the code's
segment-boundary matching (exact or `route + "/"` prefix) — `null` means "no
dashboard entry", not "public": list-route paths such as `/list/...` are
protected yet have no entry.  When the lookup returns an entry, that entry
matches and is the unique (hence longest) matching entry: ambiguous ties
cannot arise from the configured table, so none is ever resolved at
runtime. -/
theorem dashboard_lookup_unique_match (p : Path) :
    (getDashboardRoute p = none ↔
      ∀ route ∈ DASHBOARD_ROUTES.map Prod.fst,
        dashRouteMatches route p = false) ∧
    (∀ d, getDashboardRoute p = some d →
      d ∈ DASHBOARD_ROUTES.map Prod.fst ∧
      dashRouteMatches d p = true ∧
      (∀ d' ∈ DASHBOARD_ROUTES.map Prod.fst,
        dashRouteMatches d' p = true → d' = d) ∧
      (∀ d' ∈ DASHBOARD_ROUTES.map Prod.fst,
        dashRouteMatches d' p = true → d'.length ≤ d.length)) := by
  constructor
  · rw [getDashboardRoute, List.find?_eq_none]
    constructor
    · intro h route hmem
      simpa using h route hmem
    · intro h route hmem
      simp [h route hmem]
  · intro d hd
    rw [getDashboardRoute] at hd
    have hmem : d ∈ DASHBOARD_ROUTES.map Prod.fst :=
      List.mem_of_find?_eq_some hd
    have hmatch : dashRouteMatches d p = true := by
      have hm := List.find?_some hd
      simpa using hm
    have huniq : ∀ d' ∈ DASHBOARD_ROUTES.map Prod.fst,
        dashRouteMatches d' p = true → d' = d :=
      fun d' hd' hm' => dashMatches_unique p d' d hd' hmem hm' hmatch
    exact ⟨hmem, hmatch, huniq,
      fun d' hd' hm' => le_of_eq (congrArg List.length (huniq d' hd' hm'))⟩

/-- Witness for C8 amended at `/admin/users`, whose unique matching entry is
`/admin`. -/
theorem dashboard_lookup_unique_match_witness :
    getDashboardRoute "/admin/users".toList = some "/admin".toList ∧
    ("/admin".toList ∈ DASHBOARD_ROUTES.map Prod.fst ∧
      dashRouteMatches "/admin".toList "/admin/users".toList = true ∧
      (∀ d' ∈ DASHBOARD_ROUTES.map Prod.fst,
        dashRouteMatches d' "/admin/users".toList = true →
          d' = "/admin".toList) ∧
      (∀ d' ∈ DASHBOARD_ROUTES.map Prod.fst,
        dashRouteMatches d' "/admin/users".toList = true →
          d'.length ≤ "/admin".toList.length)) :=
  ⟨by decide,
   (dashboard_lookup_unique_match "/admin/users".toList).2
     "/admin".toList (by decide)⟩

/-! ### C9: missing privilege check on role update -/

/-- **C9.** The role-update handler never reads the caller's session (the
`auth` import in the source is unused), so its outcome is identical for
every caller; at the concrete failing input — an anonymous caller
(`session = none`) asking to make `u1` an admin — the operation succeeds
with 200 and rewrites both the Role Record and the claims mirror, where the
claim requires an error and no state change. -/
theorem update_role_no_privilege_check :
    (∀ (s1 s2 : Option String) (m : String) (bu br : Option String)
      (store : Store) (mirrorOk : Nat → Bool),
      updateRoleHandler ⟨m, bu, br, s1⟩ store mirrorOk =
        updateRoleHandler ⟨m, bu, br, s2⟩ store mirrorOk) ∧
    (updateRoleHandler ⟨"POST", some "u1", some "admin", none⟩ store1
        (fun _ => true)).status = 200 ∧
    (updateRoleHandler ⟨"POST", some "u1", some "admin", none⟩ store1
        (fun _ => true)).role = some "admin" ∧
    (updateRoleHandler ⟨"POST", some "u1", some "admin", none⟩ store1
        (fun _ => true)).store.db = [⟨"u1", "e", "admin"⟩] ∧
    (updateRoleHandler ⟨"POST", some "u1", some "admin", none⟩ store1
        (fun _ => true)).store.claims = [("u1", "admin")] := by
  exact ⟨fun s1 s2 m bu br store mirrorOk => rfl, rfl, rfl, rfl, rfl⟩

/-! ### C10: role fetch is caller-independent -/

/-- **C10.** The role-fetch handler never reads the caller's session: two
requests carrying the same body against the same store state produce the
same result whatever session (or none) issued them, and an absent record is
first-touch provisioned with role `"student"` for an arbitrary `userId` —
no caller authentication is enforced. -/
theorem role_fetch_caller_independent :
    (∀ (s1 s2 : Option String) (m : String) (bu bn1 bn2 : Option String)
      (store : Store),
      roleHandler ⟨m, bu, bn1, s1⟩ store = roleHandler ⟨m, bu, bn2, s2⟩ store) ∧
    (∀ (uid : String) (store : Store) (s : Option String), uid ≠ "" →
      findUser store.db uid = none →
      (roleHandler ⟨"POST", some uid, none, s⟩ store).role = some "student" ∧
      findUser (roleHandler ⟨"POST", some uid, none, s⟩ store).store.db uid =
        some ⟨uid, "", "student"⟩) := by
  constructor
  · intro s1 s2 m bu bn1 bn2 store
    rfl
  · intro uid store s hu habsent
    have htr : strTruthy uid = true := by simp [strTruthy, hu]
    have hres : roleHandler ⟨"POST", some uid, none, s⟩ store =
        ⟨200, some "student", none,
          ⟨store.db ++ [⟨uid, "", "student"⟩], store.claims⟩⟩ := by
      simp [roleHandler, htr, habsent]
    rw [hres]
    exact ⟨rfl,
      findUser_append_self store.db uid habsent ⟨uid, "", "student"⟩ rfl⟩

/-- Witness for C10: an anonymous caller provisioning the arbitrary
identity `victim` on an empty store. -/
theorem role_fetch_caller_independent_witness :
    (roleHandler ⟨"POST", some "victim", none, none⟩ ⟨[], []⟩).role =
        some "student" ∧
    findUser (roleHandler ⟨"POST", some "victim", none, none⟩
        ⟨[], []⟩).store.db "victim" = some ⟨"victim", "", "student"⟩ :=
  role_fetch_caller_independent.2 "victim" ⟨[], []⟩ none (by decide) rfl

end SchoolMan
